import Mathlib

/-!
Verification of the file-watcher build script (`observer.py`).

The script watches a directory tree; on a modified-file event it either
transpiles the file (paths ending in `.js`) or resolves reverse references
(paths ending in `.glsl`) via `git grep -l` and transpiles each referencing
file.

Embedding conventions:
* Python strings (and the `bytes` output of the search tool) are `List Char`.
* The observable behaviour of one handler invocation is a trace of `Effect`s
  (lines printed to stdout, shell commands executed) together with an
  optional propagated error (a raised `CalledProcessError` is `some e`).
* The external world is passed in explicitly: `sys` maps a shell command to
  the exit status returned by `os.system`, and `grep` maps a basename to the
  result of `subprocess.check_output(['git','grep','-l', basename, '--', 'src'])`
  (`Except.error e` models the `CalledProcessError` raised on non-zero exit,
  e.g. when there are zero matches).
-/

namespace Observer

/-- Python strings / bytes are modelled as lists of characters. -/
abbrev Str := List Char

/-- One observable side effect of the handler: a line printed to stdout or a
shell command handed to `os.system`. -/
inductive Effect where
  | printed (line : Str)
  | executed (cmd : Str)
deriving DecidableEq, Repr

/-- Python `s.endswith(suffix)`: `suffix` is a suffix of `s`. -/
def pyEndswith (s suffix : Str) : Bool :=
  suffix.isSuffixOf s

/-- Worker for `pyReplace`, scanning the string one character at a time.
While `skip > 0` the scanner is still inside a just-replaced occurrence of
`old` and consumes the character without testing or emitting it; at
`skip = 0` it tests whether `old` starts here, and on a match emits `new`
and arranges to skip the remaining `old.length - 1` matched characters. -/
def pyReplaceGo (old new : Str) : Str → Nat → Str
  | [], _ => []
  | _ :: rest, skip + 1 => pyReplaceGo old new rest skip
  | c :: rest, 0 =>
    if old ≠ [] ∧ old.isPrefixOf (c :: rest) then
      new ++ pyReplaceGo old new rest (old.length - 1)
    else
      c :: pyReplaceGo old new rest 0

/-- Python `s.replace(old, new)` for a non-empty `old`: every non-overlapping
occurrence of `old` is replaced by `new`, scanning left to right.  (The
source only calls it with the non-empty pattern `./src`; Python's special
behaviour for an empty pattern is therefore irrelevant and not modelled: for
`old = []` this returns `s` unchanged.) -/
def pyReplace (old new s : Str) : Str :=
  pyReplaceGo old new s 0

/-- Python `os.path.basename(p)` for POSIX paths: everything after the last
`/` (the last chunk of splitting on `/`). -/
def basename (p : Str) : Str :=
  (p.splitOn '/').getLastD []

/-- The source-root segment `'./src'` of the hardcoded path-mapping rule
(observer.py line 9). -/
def srcSeg : Str := "./src".toList

/-- The output-root segment `'./lib'` of the hardcoded path-mapping rule
(observer.py line 9). -/
def libSeg : Str := "./lib".toList

/-- The extension dispatched to the Build Invoker (observer.py line 20). -/
def jsExt : Str := ".js".toList

/-- The extension dispatched to the Reverse-Reference Resolver
(observer.py line 22). -/
def glslExt : Str := ".glsl".toList

/-- The output path computed by `transpile_file`:
`file.replace('./src', './lib')` (observer.py line 9). -/
def transpiledOutputPath (file : Str) : Str :=
  pyReplace srcSeg libSeg file

/-- The command string constructed by `transpile_file`:
`'npx babel {} --source-maps -o {}'.format(file, file.replace('./src','./lib'))`
(observer.py line 9). -/
def buildCmd (file : Str) : Str :=
  "npx babel ".toList ++ file ++ " --source-maps -o ".toList
    ++ transpiledOutputPath file

/-- `transpile_file(file)` (observer.py lines 8-11): build the command,
print it, then run it synchronously with `os.system`, whose exit status
(`sys cmd`) is discarded.  The value is the trace of effects; the function
never raises. -/
def transpile_file (sys : Str → Int) (file : Str) : List Effect :=
  let cmd := buildCmd file
  let _exitStatus := sys cmd
  [Effect.printed cmd, Effect.executed cmd]

/-- The marker line `'## ' + event.src_path` printed by the `.glsl` branch
(observer.py line 25). -/
def markerLine (src_path : Str) : Str :=
  "## ".toList ++ src_path

/-- The `.glsl` branch of `on_modified` (observer.py lines 24-28):
`subprocess.check_output(['git','grep','-l', basename, '--', 'src'])` first
(raising on non-zero exit, modelled as `grep` returning `Except.error`),
then the marker print, then one `transpile_file('./' + file.decode())` per
non-empty chunk of the output split on `b'\n'`. -/
def resolveAndTranspile (sys : Str → Int) (grep : Str → Except Nat Str)
    (src_path : Str) : List Effect × Option Nat :=
  match grep (basename src_path) with
  | Except.error e => ([], some e)
  | Except.ok file_list =>
    (Effect.printed (markerLine src_path) ::
      (file_list.splitOn '\n').flatMap (fun file =>
        if file ≠ [] then transpile_file sys ("./".toList ++ file) else []),
      none)

/-- `MyEH.on_modified(event)` (observer.py lines 19-28): dispatch on
`event.src_path` — `endswith('.js')` goes to `transpile_file`,
`endswith('.glsl')` goes to the resolver branch, anything else falls
through the `if`/`elif` with no effect. -/
def on_modified (sys : Str → Int) (grep : Str → Except Nat Str)
    (src_path : Str) : List Effect × Option Nat :=
  if pyEndswith src_path jsExt then
    (transpile_file sys src_path, none)
  else if pyEndswith src_path glslExt then
    resolveAndTranspile sys grep src_path
  else
    ([], none)

/-- `globMatchAux m s` tests whether the rest of a glob pattern (packaged as
the matcher `m`) matches some suffix of `s`: this is the meaning of a `*`
wildcard, which absorbs an arbitrary prefix of the string. -/
def globMatchAux (m : Str → Bool) : Str → Bool
  | [] => m []
  | c :: ss => m (c :: ss) || globMatchAux m ss

/-- Glob matching with the `*` wildcard (any sequence of characters) and
literal characters, as `fnmatch` treats the patterns `*.js` / `*.glsl`
(neither contains `?` or `[`).  Modelled from the spec: the watchdog
library's `PatternMatchingEventHandler` pattern test is not part of this
repository's sources; the spec describes it as glob-style matching of the
event path against the two patterns. -/
def globMatch : Str → Str → Bool
  | [], s => s.isEmpty
  | p :: ps, s =>
    if p = '*' then
      globMatchAux (globMatch ps) s
    else
      match s with
      | [] => false
      | c :: ss => p == c && globMatch ps ss

/-- The glob patterns of the event filter:
`patterns=['*.js', '*.glsl']` (observer.py line 17). -/
def patterns : List Str := ["*.js".toList, "*.glsl".toList]

/-- Modelled from the spec: the watchdog `PatternMatchingEventHandler`
(constructed with `patterns=['*.js','*.glsl']`, `ignore_directories=True`,
observer.py line 17) accepts an event iff it is not a directory event and
its path matches one of the glob patterns. -/
def accepts (isDirectory : Bool) (src_path : Str) : Bool :=
  !isDirectory && patterns.any (fun pat => globMatch pat src_path)

/-- Modelled from the spec: a first-occurrence-only substring substitution
("the fixed source-segment replaced by the fixed output-segment, only the
first occurrence").  This is the reading of the path-mapping rule under
test; it is to be compared with `pyReplace`, the substitution the source
actually performs. -/
def replaceFirst (old new : Str) : Str → Str
  | [] => []
  | c :: rest =>
    if old ≠ [] ∧ old.isPrefixOf (c :: rest) then
      new ++ (c :: rest).drop old.length
    else
      c :: replaceFirst old new rest

/-- A concrete exit-status environment in which every command succeeds. -/
def sysOk : Str → Int := fun _ => 0

/-- A concrete exit-status environment in which every command fails. -/
def sysFail : Str → Int := fun _ => 1

/-- A concrete search environment: `git grep` finds no match for any
basename and exits with status 1, raising `CalledProcessError`. -/
def grepFail : Str → Except Nat Str := fun _ => Except.error 1

/-- A concrete search environment: `git grep` reports the raw output
`b'a.js\nb.js\n\n'` for every basename. -/
def grepTwoMatches : Str → Except Nat Str := fun _ =>
  Except.ok "a.js\nb.js\n\n".toList

/-! ## Helper lemmas -/

/-- If the pattern is wildcard-free, glob matching is literal equality. -/
theorem globMatch_literal {ps : Str} (hps : '*' ∉ ps) :
    ∀ {s : Str}, globMatch ps s = true → s = ps := by
  induction ps with
  | nil =>
    intro s h
    simp only [globMatch, List.isEmpty_iff] at h
    exact h
  | cons p ps ih =>
    intro s h
    have hp : p ≠ '*' := fun e => hps (e ▸ List.mem_cons_self p ps)
    have hps' : '*' ∉ ps := fun m => hps (List.mem_cons_of_mem p m)
    cases s with
    | nil => simp [globMatch, hp] at h
    | cons c ss =>
      simp only [globMatch, if_neg hp, Bool.and_eq_true, beq_iff_eq] at h
      rw [ih hps' h.2, h.1]

/-- A `*` wildcard match succeeds exactly when the rest of the pattern
matches some suffix of the string. -/
theorem globMatchAux_exists_suffix {m : Str → Bool} :
    ∀ {s : Str}, globMatchAux m s = true → ∃ t, t <:+ s ∧ m t = true := by
  intro s
  induction s with
  | nil =>
    intro h
    exact ⟨[], List.suffix_refl [], h⟩
  | cons c ss ih =>
    intro h
    simp only [globMatchAux, Bool.or_eq_true] at h
    rcases h with h | h
    · exact ⟨c :: ss, List.suffix_refl _, h⟩
    · obtain ⟨t, hts, hmt⟩ := ih h
      exact ⟨t, hts.trans (List.suffix_cons c ss), hmt⟩

/-- A string matching a pattern of the shape `*lit` (with `lit`
wildcard-free) ends with `lit`. -/
theorem globMatch_star_literal {lit s : Str} (hlit : '*' ∉ lit)
    (h : globMatch ('*' :: lit) s = true) : lit <:+ s := by
  have haux : globMatchAux (globMatch lit) s = true := by
    simpa [globMatch] using h
  obtain ⟨t, hts, hmt⟩ := globMatchAux_exists_suffix haux
  rwa [globMatch_literal hlit hmt] at hts

/-- If the pattern never occurs in the string, `pyReplaceGo` (started
outside any occurrence) leaves the string unchanged. -/
theorem pyReplaceGo_eq_of_not_infix {old new : Str} :
    ∀ {s : Str}, ¬ old <:+: s → pyReplaceGo old new s 0 = s := by
  intro s
  induction s with
  | nil => intro _; rfl
  | cons c rest ih =>
    intro hni
    have hcond : ¬ (old ≠ [] ∧ old.isPrefixOf (c :: rest)) := by
      rintro ⟨-, hpre⟩
      exact hni (List.IsPrefix.isInfix (List.isPrefixOf_iff_prefix.mp hpre))
    have hrest : ¬ old <:+: rest := fun hi => hni (List.infix_cons hi)
    simp only [pyReplaceGo, if_neg hcond, ih hrest]

/-- Skipping over a block of characters: running the scanner with a skip
budget equal to the block's length just discards the block. -/
theorem pyReplaceGo_skip {old new : Str} :
    ∀ (pre t : Str), pyReplaceGo old new (pre ++ t) pre.length
      = pyReplaceGo old new t 0 := by
  intro pre
  induction pre with
  | nil => intro t; rfl
  | cons c pre ih =>
    intro t
    simpa [pyReplaceGo] using ih t

/-- Scanning a string that starts with a (non-empty) occurrence of the
pattern replaces that occurrence and continues after it: substitution is
applied to every non-overlapping occurrence, left to right. -/
theorem pyReplace_append_match {old new : Str} (hold : old ≠ []) (t : Str) :
    pyReplace old new (old ++ t) = new ++ pyReplace old new t := by
  obtain ⟨o, os, rfl⟩ := List.exists_cons_of_ne_nil hold
  have hpre : (o :: os).isPrefixOf ((o :: os) ++ t) :=
    List.isPrefixOf_iff_prefix.mpr (List.prefix_append _ _)
  have hcond : (o :: os) ≠ [] ∧ (o :: os).isPrefixOf (o :: (os ++ t)) := by
    exact ⟨List.cons_ne_nil o os, hpre⟩
  show pyReplaceGo (o :: os) new (o :: (os ++ t)) 0 = _
  rw [pyReplaceGo, if_pos hcond]
  have : (o :: os).length - 1 = os.length := by simp
  rw [this, pyReplaceGo_skip os t]
  rfl

/-! ## Claims -/

/-- C1 (counterexample): the output-path computation is NOT a
first-occurrence-only substitution.  On the `.js` path
`./src/./src/foo.js`, the code computes `./lib/./lib/foo.js` (every
occurrence of `./src` replaced), whereas a first-occurrence-only
substitution yields `./lib/./src/foo.js`. -/
theorem c1_first_occurrence_counterexample :
    pyEndswith "./src/./src/foo.js".toList jsExt = true ∧
    transpiledOutputPath "./src/./src/foo.js".toList
      = "./lib/./lib/foo.js".toList ∧
    replaceFirst srcSeg libSeg "./src/./src/foo.js".toList
      = "./lib/./src/foo.js".toList ∧
    transpiledOutputPath "./src/./src/foo.js".toList
      ≠ replaceFirst srcSeg libSeg "./src/./src/foo.js".toList := by
  decide

/-- C1 (amended): for every path ending in `.js`, the handler invokes the
Build Invoker with exactly that path; the computed output path replaces
every non-overlapping occurrence of `./src` by `./lib`, scanning left to
right (an occurrence at the front is rewritten and scanning continues with
the remainder); in particular `./src/foo.js` maps to `./lib/foo.js`. -/
theorem c1_js_transpiled_all_occurrences_replaced
    (sys : Str → Int) (grep : Str → Except Nat Str) (p t : Str)
    (h : pyEndswith p jsExt = true) :
    on_modified sys grep p = (transpile_file sys p, none) ∧
    transpiledOutputPath (srcSeg ++ t) = libSeg ++ transpiledOutputPath t ∧
    transpiledOutputPath "./src/foo.js".toList = "./lib/foo.js".toList := by
  refine ⟨by simp [on_modified, h], ?_, by decide⟩
  exact pyReplace_append_match (by decide) t

/-- C1 witness: the amended theorem at the path `./src/foo.js`. -/
theorem c1_witness :
    pyEndswith "./src/foo.js".toList jsExt = true ∧
    (on_modified sysOk grepFail "./src/foo.js".toList
        = (transpile_file sysOk "./src/foo.js".toList, none) ∧
      transpiledOutputPath (srcSeg ++ "/x".toList)
        = libSeg ++ transpiledOutputPath "/x".toList ∧
      transpiledOutputPath "./src/foo.js".toList = "./lib/foo.js".toList) :=
  ⟨by decide,
    c1_js_transpiled_all_occurrences_replaced sysOk grepFail
      "./src/foo.js".toList "/x".toList (by decide)⟩

/-- C2: the modified-event handler dispatches on the path's suffix — a path
ending in `.js` goes to the Build Invoker with exactly that path, otherwise
a path ending in `.glsl` goes to the Reverse-Reference Resolver with
exactly that path. -/
theorem c2_dispatch_on_suffix
    (sys : Str → Int) (grep : Str → Except Nat Str) (p : Str) :
    (pyEndswith p jsExt = true →
      on_modified sys grep p = (transpile_file sys p, none)) ∧
    (pyEndswith p jsExt = false → pyEndswith p glslExt = true →
      on_modified sys grep p = resolveAndTranspile sys grep p) := by
  constructor
  · intro h
    simp [on_modified, h]
  · intro h1 h2
    simp [on_modified, h1, h2]

/-- C2 witness: dispatch at the concrete paths `./src/a.js` and
`./src/a.glsl`. -/
theorem c2_witness :
    (pyEndswith "./src/a.js".toList jsExt = true ∧
      on_modified sysOk grepTwoMatches "./src/a.js".toList
        = (transpile_file sysOk "./src/a.js".toList, none)) ∧
    (pyEndswith "./src/a.glsl".toList jsExt = false ∧
      pyEndswith "./src/a.glsl".toList glslExt = true ∧
      on_modified sysOk grepTwoMatches "./src/a.glsl".toList
        = resolveAndTranspile sysOk grepTwoMatches "./src/a.glsl".toList) :=
  ⟨⟨by decide,
      (c2_dispatch_on_suffix sysOk grepTwoMatches "./src/a.js".toList).1
        (by decide)⟩,
    ⟨by decide, by decide,
      (c2_dispatch_on_suffix sysOk grepTwoMatches "./src/a.glsl".toList).2
        (by decide) (by decide)⟩⟩

/-- C3: when the content search raises (non-zero exit, zero matches), the
handler propagates that error and produces no effects at all — in
particular the Build Invoker is never invoked for that event. -/
theorem c3_search_failure_propagates
    (sys : Str → Int) (grep : Str → Except Nat Str) (p : Str) (e : Nat)
    (h1 : pyEndswith p jsExt = false) (h2 : pyEndswith p glslExt = true)
    (h3 : grep (basename p) = Except.error e) :
    on_modified sys grep p = ([], some e) := by
  simp [on_modified, h1, h2, resolveAndTranspile, h3]

/-- C3 witness: a `.glsl` event whose search fails with exit status 1. -/
theorem c3_witness :
    pyEndswith "./src/a.glsl".toList jsExt = false ∧
    pyEndswith "./src/a.glsl".toList glslExt = true ∧
    grepFail (basename "./src/a.glsl".toList) = Except.error 1 ∧
    on_modified sysOk grepFail "./src/a.glsl".toList = ([], some 1) :=
  ⟨by decide, by decide, rfl,
    c3_search_failure_propagates sysOk grepFail "./src/a.glsl".toList 1
      (by decide) (by decide) rfl⟩

/-- C4: on a `.glsl` event whose search output is `b'a.js\nb.js\n\n'`, the
handler prints the marker and then invokes the Build Invoker exactly twice,
with `./a.js` and `./b.js` — the empty chunks of the newline split are
skipped. -/
theorem c4_two_matches_two_invocations
    (sys : Str → Int) (grep : Str → Except Nat Str) (p : Str)
    (h1 : pyEndswith p jsExt = false) (h2 : pyEndswith p glslExt = true)
    (h3 : grep (basename p) = Except.ok "a.js\nb.js\n\n".toList) :
    on_modified sys grep p =
      (Effect.printed (markerLine p) ::
        (transpile_file sys "./a.js".toList
          ++ transpile_file sys "./b.js".toList), none) := by
  simp only [on_modified, h1, h2, Bool.false_eq_true, if_false, if_true,
    resolveAndTranspile, h3]
  rfl

/-- C4 witness: the two-match scenario at the path `./src/a.glsl`. -/
theorem c4_witness :
    pyEndswith "./src/a.glsl".toList jsExt = false ∧
    pyEndswith "./src/a.glsl".toList glslExt = true ∧
    grepTwoMatches (basename "./src/a.glsl".toList)
      = Except.ok "a.js\nb.js\n\n".toList ∧
    on_modified sysOk grepTwoMatches "./src/a.glsl".toList =
      (Effect.printed (markerLine "./src/a.glsl".toList) ::
        (transpile_file sysOk "./a.js".toList
          ++ transpile_file sysOk "./b.js".toList), none) :=
  ⟨by decide, by decide, rfl,
    c4_two_matches_two_invocations sysOk grepTwoMatches
      "./src/a.glsl".toList (by decide) (by decide) rfl⟩

/-- C5: the Build Invoker never inspects or propagates the external
command's exit status — its entire behaviour is identical under any
exit-status environment (in particular one where every command fails), and
the handler call for a `.js` path completes normally, propagating no
error. -/
theorem c5_exit_status_swallowed
    (sys sys' : Str → Int) (grep : Str → Except Nat Str) (p file : Str)
    (h : pyEndswith p jsExt = true) :
    transpile_file sys file = transpile_file sys' file ∧
    (on_modified sys grep p).2 = none := by
  refine ⟨rfl, ?_⟩
  simp [on_modified, h]

/-- C5 witness: the build of `./src/a.js` behaves identically whether every
command succeeds or every command fails, and no error is propagated. -/
theorem c5_witness :
    pyEndswith "./src/a.js".toList jsExt = true ∧
    (transpile_file sysOk "./src/a.js".toList
        = transpile_file sysFail "./src/a.js".toList ∧
      (on_modified sysOk grepFail "./src/a.js".toList).2 = none) :=
  ⟨by decide,
    c5_exit_status_swallowed sysOk sysFail grepFail "./src/a.js".toList
      "./src/a.js".toList (by decide)⟩

/-- C6: every event the pattern filter accepts (patterns `*.js` and
`*.glsl`, directories ignored) ends in `.js` or in `.glsl`, so it falls
into one of the two suffix branches of the handler: an
accepted-but-unmatched event is impossible. -/
theorem c6_accepted_implies_branch (isDirectory : Bool) (p : Str)
    (h : accepts isDirectory p = true) :
    pyEndswith p jsExt = true ∨ pyEndswith p glslExt = true := by
  have hany : globMatch "*.js".toList p = true
      ∨ globMatch "*.glsl".toList p = true := by
    simp only [accepts, patterns, Bool.and_eq_true, List.any_cons,
      List.any_nil, Bool.or_eq_true, Bool.or_false] at h
    exact h.2
  rcases hany with hm | hm
  · left
    have hsuf : jsExt <:+ p :=
      globMatch_star_literal (by decide) (by simpa using hm)
    simpa [pyEndswith] using List.isSuffixOf_iff_suffix.mpr hsuf
  · right
    have hsuf : glslExt <:+ p :=
      globMatch_star_literal (by decide) (by simpa using hm)
    simpa [pyEndswith] using List.isSuffixOf_iff_suffix.mpr hsuf

/-- C6 witness: the accepted file path `./src/shaders/a.glsl` ends in one
of the two dispatched extensions. -/
theorem c6_witness :
    accepts false "./src/shaders/a.glsl".toList = true ∧
    (pyEndswith "./src/shaders/a.glsl".toList jsExt = true ∨
      pyEndswith "./src/shaders/a.glsl".toList glslExt = true) :=
  ⟨by decide,
    c6_accepted_implies_branch false "./src/shaders/a.glsl".toList
      (by decide)⟩

/-- C7: the Build Invoker is a pure function of its input path — for equal
input paths (and regardless of the exit-status environment), the
constructed command string, the computed output path and the whole
observable trace coincide between any two invocations. -/
theorem c7_build_invoker_pure
    (sys sys' : Str → Int) (file file' : Str) (h : file = file') :
    buildCmd file = buildCmd file' ∧
    transpiledOutputPath file = transpiledOutputPath file' ∧
    transpile_file sys file = transpile_file sys' file' := by
  subst h
  exact ⟨rfl, rfl, rfl⟩

/-- C7 witness: two invocations on `./src/foo.js` agree. -/
theorem c7_witness :
    "./src/foo.js".toList = "./src/foo.js".toList ∧
    (buildCmd "./src/foo.js".toList = buildCmd "./src/foo.js".toList ∧
      transpiledOutputPath "./src/foo.js".toList
        = transpiledOutputPath "./src/foo.js".toList ∧
      transpile_file sysOk "./src/foo.js".toList
        = transpile_file sysFail "./src/foo.js".toList) :=
  ⟨rfl, c7_build_invoker_pure sysOk sysFail "./src/foo.js".toList
    "./src/foo.js".toList rfl⟩

/-- C8: the trace of one Build Invoker call is exactly the print of the
constructed command followed by its execution: the command is printed
before it is executed, and the execution belongs to the call's own trace —
the call returns only once the synchronous execution has happened (nothing
in the trace follows it). -/
theorem c8_print_before_execute (sys : Str → Int) (file : Str) :
    transpile_file sys file
      = [Effect.printed (buildCmd file)] ++ [Effect.executed (buildCmd file)] :=
  rfl

/-- C9: on any path with no occurrence of `./src` (absolute paths, relative
paths not rooted at `./src`, …), the computed output path is the input
path itself, so the constructed command tells the transpiler to overwrite
the input file with its own output. -/
theorem c9_no_src_segment_output_unchanged (p : Str)
    (h : ¬ srcSeg <:+: p) :
    transpiledOutputPath p = p ∧
    buildCmd p
      = "npx babel ".toList ++ p ++ " --source-maps -o ".toList ++ p := by
  have h1 : transpiledOutputPath p = p := by
    unfold transpiledOutputPath pyReplace
    exact pyReplaceGo_eq_of_not_infix h
  refine ⟨h1, ?_⟩
  unfold buildCmd
  rw [h1]

/-- C9 witness: the absolute path `/abs/path/foo.js` is mapped to itself. -/
theorem c9_witness :
    ¬ srcSeg <:+: "/abs/path/foo.js".toList ∧
    (transpiledOutputPath "/abs/path/foo.js".toList
        = "/abs/path/foo.js".toList ∧
      buildCmd "/abs/path/foo.js".toList
        = "npx babel ".toList ++ "/abs/path/foo.js".toList
          ++ " --source-maps -o ".toList ++ "/abs/path/foo.js".toList) :=
  ⟨by decide,
    c9_no_src_segment_output_unchanged "/abs/path/foo.js".toList (by decide)⟩

/-- C10: on a `.glsl` event, the marker line `## <path>` appears only after
a successful search — when the search succeeds it is the first effect of
the handler's trace (before any build invocation) and no error is
propagated; when the search raises, the handler produces no effects at all
(no marker, no build) and only the propagated error. -/
theorem c10_marker_only_after_search_success
    (sys : Str → Int) (grep : Str → Except Nat Str) (p : Str)
    (e : Nat) (out : Str)
    (h1 : pyEndswith p jsExt = false) (h2 : pyEndswith p glslExt = true) :
    (grep (basename p) = Except.error e →
      on_modified sys grep p = ([], some e)) ∧
    (grep (basename p) = Except.ok out →
      (on_modified sys grep p).1.head?
          = some (Effect.printed (markerLine p)) ∧
        (on_modified sys grep p).2 = none) := by
  constructor
  · intro h3
    simp [on_modified, h1, h2, resolveAndTranspile, h3]
  · intro h3
    simp [on_modified, h1, h2, resolveAndTranspile, h3]

/-- C10 witness: at `./src/s.glsl`, a failing search yields the bare error
with no effects, and a successful search starts the trace with the marker
line and propagates no error. -/
theorem c10_witness :
    pyEndswith "./src/s.glsl".toList jsExt = false ∧
    pyEndswith "./src/s.glsl".toList glslExt = true ∧
    on_modified sysOk grepFail "./src/s.glsl".toList = ([], some 1) ∧
    ((on_modified sysOk grepTwoMatches "./src/s.glsl".toList).1.head?
        = some (Effect.printed (markerLine "./src/s.glsl".toList)) ∧
      (on_modified sysOk grepTwoMatches "./src/s.glsl".toList).2 = none) :=
  ⟨by decide, by decide,
    (c10_marker_only_after_search_success sysOk grepFail
      "./src/s.glsl".toList 1 "a.js\nb.js\n\n".toList
      (by decide) (by decide)).1 rfl,
    (c10_marker_only_after_search_success sysOk grepTwoMatches
      "./src/s.glsl".toList 1 "a.js\nb.js\n\n".toList
      (by decide) (by decide)).2 rfl⟩

end Observer
